import Mathlib

/-!
Shallow embedding of the Trivia-API backend (`backend/flaskr/__init__.py`).

The request handlers are pure functions over an explicit `Store` (the
relational database state).  Flask's `abort(code)` and server-side
exceptions are modelled by `Except Nat` where the `Nat` is the HTTP status
code of the response.  Storage mutation failures (the `try/except` blocks
around `insert`/`delete`) are modelled by an explicit boolean parameter.
-/

deriving instance DecidableEq for Except

deriving instance DecidableEq for Sum

namespace Trivia

/-- A persisted trivia question (`models.py` entity used by the handlers). -/
structure Question where
  id : Nat
  question : String
  answer : String
  category : Int
  difficulty : Int
deriving DecidableEq, Repr

/-- A persisted category. -/
structure Category where
  id : Nat
  type : String
deriving DecidableEq, Repr

/-- The database state: the two tables plus the id the next inserted row gets. -/
structure Store where
  questions : List Question
  categories : List Category
  nextId : Nat
deriving DecidableEq, Repr

/-- Modelled from the spec: `Question.format` lives in `models.py`, which is not
among the provided sources.  The spec (section 3 and the glossary) describes the
formatted view of a question as the per-item view of a trivia item carrying its
id, text, answer, category reference and difficulty. -/
structure FormattedQuestion where
  id : Nat
  question : String
  answer : String
  category : Int
  difficulty : Int
deriving DecidableEq, Repr

/-- Modelled from the spec: the per-item formatted view used by every listing. -/
def Question.format (q : Question) : FormattedQuestion :=
  ⟨q.id, q.question, q.answer, q.category, q.difficulty⟩

/-- `QUESTIONS_PER_PAGE = 10` (line 10 of the source). -/
def QUESTIONS_PER_PAGE : Nat := 10

/-- Normalisation of one Python slice bound: negative indices count from the
end of the list, and both ends are clamped into `[0, len]`. -/
def pyIndex (len : Nat) (i : Int) : Nat :=
  if i < 0 then (i + len).toNat else min i.toNat len

/-- Python's `l[start:stop]` (step 1). -/
def pySlice (l : List α) (start stop : Int) : List α :=
  (l.take (pyIndex l.length stop)).drop (pyIndex l.length start)

/-- `paginate_questions` (lines 14-25).  `page` is the value of the `page`
query parameter (`request.args.get('page', 1, type=int)`, so an arbitrary
integer with default 1); `selection` is the query result being paginated. -/
def paginate_questions (page : Int) (selection : List Question) :
    Except Nat (List FormattedQuestion) :=
  let start := (page - 1) * (QUESTIONS_PER_PAGE : Int)
  let stop := start + (QUESTIONS_PER_PAGE : Int)
  if ((selection.length % QUESTIONS_PER_PAGE : Nat) : Int) < page then
    Except.error 404
  else
    Except.ok (pySlice (selection.map Question.format) start stop)

/-- SQL `LIKE` pattern matching over character lists: `'%'` matches any
(possibly empty) sequence, `'_'` matches exactly one character, every other
pattern character matches itself.  Case folding is done by the callers. -/
def likeMatch : List Char → List Char → Bool
  | [], s => s.isEmpty
  | c :: ps, s =>
    if c = '%' then s.tails.any (fun s2 => likeMatch ps s2)
    else
      match s with
      | [] => false
      | d :: s2 => (c == '_' || c == d) && likeMatch ps s2

/-- The pattern `f'%{search_term}%'` of line 159, case-folded: the search term
is interpolated into the pattern verbatim, so `%` and `_` inside it act as
wildcards. -/
def likePattern (term : String) : List Char :=
  '%' :: (term.toList.map Char.toLower ++ ['%'])

/-- `Question.question.ilike(f'%{search_term}%')` (line 159): case-insensitive
`LIKE` match of the pattern `%term%` against a question's text. -/
def ilikeMatches (term text : String) : Bool :=
  likeMatch (likePattern term) (text.toList.map Char.toLower)

/-- The spec's reading of the search filter ("case-insensitive substring match
of the search term against the question text"), stated independently of the
source for comparison with `ilikeMatches`. -/
def substrMatches (term text : String) : Bool :=
  decide ((term.toList.map Char.toLower) <:+: (text.toList.map Char.toLower))

/-- `true` when the case-folded search term contains no `LIKE` wildcard
character (`%` or `_`); case folding fixes both wildcard characters. -/
def noWildcards (term : String) : Bool :=
  (term.toList.map Char.toLower).all (fun ch => ch != '%' && ch != '_')

/-- Python truthiness of `body.get('searchTerm')` for a JSON string field:
absent (`None`) and the empty string are falsy. -/
def truthy : Option String → Bool
  | none => false
  | some s => s != ""

/-- SQLAlchemy's `one_or_none` on a query result: `none` for an empty result,
the row for a singleton, and a `MultipleResultsFound` exception — surfacing as
a server error — otherwise. -/
def one_or_none : List α → Except Nat (Option α)
  | [] => Except.ok none
  | [a] => Except.ok (some a)
  | _ => Except.error 500

/-- The JSON body of the registered error handlers (lines 289-311). -/
structure ErrorBody where
  success : Bool
  error : Nat
  message : String
deriving DecidableEq, Repr

/-- The bodies produced by the `@app.errorhandler` functions for 400, 404 and
422; any other status has no registered handler. -/
def errorBody : Nat → ErrorBody
  | 400 => ⟨false, 400, "bad request"⟩
  | 404 => ⟨false, 404, "resource not found"⟩
  | 422 => ⟨false, 422, "unprocessable"⟩
  | e => ⟨false, e, "internal server error"⟩

/-- Success body of `GET /questions` (lines 98-103). -/
structure QuestionListResponse where
  success : Bool
  questions : List FormattedQuestion
  Total_questions : Nat
  categories : List (Nat × String)
deriving DecidableEq, Repr

/-- Success body of `DELETE /questions/<id>` (lines 128-133). -/
structure DeleteResponse where
  success : Bool
  questions : List FormattedQuestion
  Total_questions : Nat
  deleted : Nat
deriving DecidableEq, Repr

/-- Success body of the search branch of `POST /questions` (lines 167-171). -/
structure SearchResponse where
  success : Bool
  questions : List FormattedQuestion
  total_questions : Nat
deriving DecidableEq, Repr

/-- Success body of the creation branch of `POST /questions` (lines 200-204). -/
structure CreateResponse where
  success : Bool
  questions : List FormattedQuestion
  Total_questions : Nat
deriving DecidableEq, Repr

/-- Success body of `GET /categories/<id>/questions` (lines 228-232). -/
structure CategoryQuestionsResponse where
  success : Bool
  questions : List FormattedQuestion
  Total_questions : Nat
deriving DecidableEq, Repr

/-- Success body of `POST /quizzes` (lines 267-270 and 280-283). -/
structure QuizResponse where
  success : Bool
  question : Option FormattedQuestion
deriving DecidableEq, Repr

/-- The JSON body of `POST /questions`; every field is optional. -/
structure QuestionBody where
  searchTerm : Option String
  question : Option String
  answer : Option String
  difficulty : Option Int
  category : Option Int
deriving DecidableEq, Repr

/-- The `quiz_category` object of the `POST /quizzes` body. -/
structure QuizCategory where
  id : Int
deriving DecidableEq, Repr

/-- The JSON body of `POST /quizzes`; both fields are optional. -/
structure QuizBody where
  quiz_category : Option QuizCategory
  previous_questions : Option (List Nat)
deriving DecidableEq, Repr

/-- The `questions` handler: `GET /questions` (lines 79-103).  The category
mapping is the dictionary keyed by category id built in iteration order. -/
def questions (page : Int) (st : Store) : Except Nat QuestionListResponse :=
  if st.categories.length = 0 then Except.error 404
  else if st.questions.length = 0 then Except.error 404
  else
    (paginate_questions page st.questions).map (fun cur =>
      ⟨true, cur, st.questions.length, st.categories.map (fun c => (c.id, c.type))⟩)

/-- The `delete_question` handler: `DELETE /questions/<id>` (lines 111-133).
`deleteFails` models the storage layer raising inside `question.delete()`; on
failure the session is rolled back (the store is unchanged) and a 422 abort is
pending.  The `finally` block always re-queries and re-paginates, and an abort
raised there replaces any pending response.  `one_or_none` guarantees the
looked-up id matches a unique row, so deletion removes exactly that row. -/
def delete_question (question_id : Nat) (page : Int) (deleteFails : Bool)
    (st : Store) : Except Nat DeleteResponse × Store :=
  match one_or_none (st.questions.filter (fun q => q.id == question_id)) with
  | Except.error e => (Except.error e, st)
  | Except.ok none => (Except.error 404, st)
  | Except.ok (some _) =>
    if deleteFails then
      match paginate_questions page st.questions with
      | Except.error e => (Except.error e, st)
      | Except.ok _ => (Except.error 422, st)
    else
      let remaining := st.questions.filter (fun q => q.id != question_id)
      let st' : Store := { st with questions := remaining }
      match paginate_questions page remaining with
      | Except.error e => (Except.error e, st')
      | Except.ok cur =>
        (Except.ok ⟨true, cur, remaining.length, question_id⟩, st')

/-- The `add_questions` handler: `POST /questions` (lines 149-204).  The search
branch is gated on the truthiness of `searchTerm`; the creation branch aborts
400 when any of the four fields is absent, otherwise inserts (with
`insertFails` modelling a storage failure followed by rollback), re-queries and
re-paginates in the `finally` block, and finally aborts 404 when the paginated
view is empty. -/
def add_questions (body : QuestionBody) (page : Int) (insertFails : Bool)
    (st : Store) : Except Nat (SearchResponse ⊕ CreateResponse) × Store :=
  if truthy body.searchTerm then
    let search_term := body.searchTerm.getD ""
    let found := st.questions.filter (fun q => ilikeMatches search_term q.question)
    if found.length = 0 then (Except.error 404, st)
    else
      match paginate_questions page found with
      | Except.error e => (Except.error e, st)
      | Except.ok cur => (Except.ok (Sum.inl ⟨true, cur, cur.length⟩), st)
  else
    match body.question, body.answer, body.difficulty, body.category with
    | some q, some a, some d, some c =>
      if insertFails then
        match paginate_questions page st.questions with
        | Except.error e => (Except.error e, st)
        | Except.ok _ => (Except.error 422, st)
      else
        let newQ : Question := ⟨st.nextId, q, a, c, d⟩
        let st' : Store :=
          { st with questions := st.questions ++ [newQ], nextId := st.nextId + 1 }
        match paginate_questions page st'.questions with
        | Except.error e => (Except.error e, st')
        | Except.ok cur =>
          if cur.length = 0 then (Except.error 404, st')
          else (Except.ok (Sum.inr ⟨true, cur, st'.questions.length⟩), st')
    | _, _, _, _ => (Except.error 400, st)

/-- The `question_by_category` handler: `GET /categories/<id>/questions`
(lines 213-232). -/
def question_by_category (category_id : Nat) (page : Int) (st : Store) :
    Except Nat CategoryQuestionsResponse :=
  match one_or_none (st.categories.filter (fun c => c.id == category_id)) with
  | Except.error e => Except.error e
  | Except.ok none => Except.error 404
  | Except.ok (some _) =>
    let qs := st.questions.filter (fun q => q.category == (category_id : Int))
    if qs.length = 0 then Except.error 404
    else
      (paginate_questions page qs).map (fun cur => ⟨true, cur, qs.length⟩)

/-- The `play_quiz` handler: `POST /quizzes` (lines 246-283).  `pick` resolves
the call to `random.choices(questions, k=1)` to the candidate at index
`pick % length`.  An absent `previous_questions` makes `notin_(None)` raise in
the query layer (a server error); the `if questions is None` check of line 277
is unreachable, a query result list being never `None`. -/
def play_quiz (body : QuizBody) (pick : Nat) (st : Store) :
    Except Nat QuizResponse :=
  match body.quiz_category with
  | none => Except.error 422
  | some qc =>
    match body.previous_questions with
    | none => Except.error 500
    | some prev =>
      let qs :=
        if qc.id == 0 then
          st.questions.filter (fun q => !(prev.contains q.id))
        else
          st.questions.filter (fun q => q.category == qc.id && !(prev.contains q.id))
      if qs.length = 0 then Except.ok ⟨true, none⟩
      else
        match qs.get? (pick % qs.length) with
        | none => Except.error 500
        | some chosen =>
          match one_or_none (st.questions.filter (fun q => q.id == chosen.id)) with
          | Except.error e => Except.error e
          | Except.ok none => Except.error 500
          | Except.ok (some nextq) => Except.ok ⟨true, some nextq.format⟩

/-- A small stock of concrete rows for witnesses and counterexamples. -/
def mkQ (n : Nat) : Question := ⟨n, "q", "a", 1, 1⟩

/-- `n` concrete questions with ids `0, …, n-1`. -/
def mkQs (n : Nat) : List Question := (List.range n).map mkQ

/-- A concrete store holding `n` questions and one category. -/
def mkStore (n : Nat) : Store := ⟨mkQs n, [⟨1, "Science"⟩], n⟩

/-! ## Helper lemmas -/

theorem take_min_length (l : List α) (n : Nat) :
    l.take (min n l.length) = l.take n := by
  rcases Nat.le_total n l.length with h | h
  · rw [Nat.min_eq_left h]
  · rw [Nat.min_eq_right h, List.take_length, List.take_of_length_le h]

theorem drop_min_of_length_le (l : List α) (a m : Nat) (h : l.length ≤ m) :
    l.drop (min a m) = l.drop a := by
  rcases Nat.le_total a m with h' | h'
  · rw [Nat.min_eq_left h']
  · rw [Nat.min_eq_right h', List.drop_eq_nil_of_le h,
      List.drop_eq_nil_of_le (Nat.le_trans h h')]

theorem pySlice_natCast (l : List α) (a b : Nat) :
    pySlice l (a : Int) (b : Int) = (l.take b).drop a := by
  have hb : pyIndex l.length (b : Int) = min b l.length := by
    unfold pyIndex
    rw [if_neg (by omega), Int.toNat_natCast]
  have ha : pyIndex l.length (a : Int) = min a l.length := by
    unfold pyIndex
    rw [if_neg (by omega), Int.toNat_natCast]
  unfold pySlice
  rw [ha, hb, take_min_length]
  exact drop_min_of_length_le _ _ _ (by rw [List.length_take]; exact min_le_right _ _)

theorem paginate_gate (page : Int) (sel : List Question) :
    (paginate_questions page sel = Except.error 404 ↔
      ((sel.length % QUESTIONS_PER_PAGE : Nat) : Int) < page) := by
  by_cases h : ((sel.length % QUESTIONS_PER_PAGE : Nat) : Int) < page
  · simp only [paginate_questions, if_pos h]
    simpa using h
  · simp only [paginate_questions, if_neg h]
    simpa using h

theorem paginate_ok (page : Int) (sel : List Question) (h1 : 1 ≤ page)
    (h2 : page ≤ ((sel.length % QUESTIONS_PER_PAGE : Nat) : Int)) :
    paginate_questions page sel =
      Except.ok (((sel.map Question.format).drop (((page - 1) *
        (QUESTIONS_PER_PAGE : Int)).toNat)).take QUESTIONS_PER_PAGE) := by
  have hng : ¬ ((sel.length % QUESTIONS_PER_PAGE : Nat) : Int) < page :=
    not_lt.mpr h2
  simp only [paginate_questions, if_neg hng]
  have h0 : (0 : Int) ≤ (page - 1) * (QUESTIONS_PER_PAGE : Int) := by
    have h10 : ((QUESTIONS_PER_PAGE : Nat) : Int) = 10 := rfl
    rw [h10]
    omega
  set a := ((page - 1) * (QUESTIONS_PER_PAGE : Int)).toNat with ha
  have e1 : (page - 1) * (QUESTIONS_PER_PAGE : Int) = (a : Int) :=
    (Int.toNat_of_nonneg h0).symm
  have e2 : (a : Int) + (QUESTIONS_PER_PAGE : Int)
      = ((a + QUESTIONS_PER_PAGE : Nat) : Int) := by
    push_cast
    ring
  rw [e1, e2, pySlice_natCast, List.drop_take, Nat.add_sub_cancel_left]

theorem likeMatch_percent (p s : List Char) :
    likeMatch ('%' :: p) s = true ↔ ∃ s2, s2 <:+ s ∧ likeMatch p s2 = true := by
  simp [likeMatch, List.any_eq_true, List.mem_tails]

theorem likeMatch_literal (t : List Char)
    (h : ∀ ch ∈ t, ch ≠ '%' ∧ ch ≠ '_') (s : List Char) :
    likeMatch (t ++ ['%']) s = true ↔ t <+: s := by
  induction t generalizing s with
  | nil =>
    simp only [List.nil_append]
    constructor
    · intro _
      exact List.nil_prefix
    · intro _
      have : likeMatch ('%' :: []) s = true := by
        rw [likeMatch_percent]
        exact ⟨[], List.nil_suffix, rfl⟩
      simpa using this
  | cons c t' ih =>
    have hc := h c (List.mem_cons_self c t')
    have ht' : ∀ ch ∈ t', ch ≠ '%' ∧ ch ≠ '_' :=
      fun ch hch => h ch (List.mem_cons_of_mem c hch)
    cases s with
    | nil =>
      simp only [List.cons_append, likeMatch, if_neg hc.1]
      simp
    | cons d s2 =>
      simp only [List.cons_append, likeMatch, if_neg hc.1]
      have hlit : (c == '_') = false := by
        simp [hc.2]
      rw [List.cons_prefix_cons, ← ih ht' s2]
      simp [hlit]

theorem likeMatch_pattern_iff (t : List Char)
    (h : ∀ ch ∈ t, ch ≠ '%' ∧ ch ≠ '_') (s : List Char) :
    likeMatch ('%' :: (t ++ ['%'])) s = true ↔ t <:+: s := by
  rw [likeMatch_percent, List.infix_iff_prefix_suffix]
  constructor
  · rintro ⟨s2, h1, h2⟩
    exact ⟨s2, (likeMatch_literal t h s2).mp h2, h1⟩
  · rintro ⟨s2, h1, h2⟩
    exact ⟨s2, h2, (likeMatch_literal t h s2).mpr h1⟩

/-- On search terms free of `LIKE` wildcards, the source's `ilike` filter and
the spec's case-insensitive-substring filter agree. -/
theorem ilikeMatches_eq_substrMatches (term text : String)
    (h : noWildcards term = true) :
    ilikeMatches term text = substrMatches term text := by
  have hwf : ∀ ch ∈ term.toList.map Char.toLower, ch ≠ '%' ∧ ch ≠ '_' := by
    intro ch hch
    have := (List.all_eq_true.mp h) ch hch
    simpa using this
  have h1 : ilikeMatches term text = true ↔
      (term.toList.map Char.toLower) <:+: (text.toList.map Char.toLower) :=
    likeMatch_pattern_iff _ hwf _
  have h2 : substrMatches term text = true ↔
      (term.toList.map Char.toLower) <:+: (text.toList.map Char.toLower) := by
    simp [substrMatches]
  cases hb : substrMatches term text
  · cases hi : ilikeMatches term text
    · rfl
    · exact absurd (h2.mpr (h1.mp hi)) (by simp [hb])
  · exact h1.mpr (h2.mp hb)

/-! ## C1: the pagination gate and slice -/

/-- C1 (counterexample): the claim says that a request that passes the modulo
gate gets back the formatted items at indices `[(page-1)*10, (page-1)*10+10)`,
an empty sequence when the start index is at or beyond the list length.  With
20 questions, a request for page `-1` passes the gate (`-1 ≤ 20 % 10`), its
index window `[-20, -10)` contains no list position, yet the handler returns
the first ten items: Python slices resolve negative bounds from the end of the
list. -/
theorem paginate_negative_page_counterexample :
    paginate_questions (-1) (mkQs 20) =
      Except.ok (((mkQs 20).map Question.format).take 10) ∧
    ((mkQs 20).map Question.format).take 10 ≠ [] := by
  constructor
  · decide
  · decide

/-- C1 (amended): for every integer page number, pagination rejects with a
404 exactly when the page exceeds the total item count modulo 10; otherwise,
for every page number ≥ 1, it returns the formatted items at indices
`[(page-1)*10, (page-1)*10+10)`, which is an empty sequence when the start
index is at or beyond the list length.  For page numbers ≤ 0 that pass the
gate the slice bounds are negative and Python resolves them from the end of
the list instead. -/
theorem paginate_gate_and_slice (page : Int) (sel : List Question) :
    (paginate_questions page sel = Except.error 404 ↔
      ((sel.length % QUESTIONS_PER_PAGE : Nat) : Int) < page)
  ∧ (1 ≤ page → page ≤ ((sel.length % QUESTIONS_PER_PAGE : Nat) : Int) →
      paginate_questions page sel =
        Except.ok (((sel.map Question.format).drop (((page - 1) *
          (QUESTIONS_PER_PAGE : Int)).toNat)).take QUESTIONS_PER_PAGE))
  ∧ (1 ≤ page → page ≤ ((sel.length % QUESTIONS_PER_PAGE : Nat) : Int) →
      sel.length ≤ (((page - 1) * (QUESTIONS_PER_PAGE : Int)).toNat) →
      paginate_questions page sel = Except.ok []) := by
  refine ⟨paginate_gate page sel, fun h1 h2 => paginate_ok page sel h1 h2, ?_⟩
  intro h1 h2 h3
  rw [paginate_ok page sel h1 h2, List.drop_eq_nil_of_le (by simpa using h3)]
  rfl

/-- C1 (witness): page 2 of 12 questions passes the gate (`2 ≤ 12 % 10`) and
returns the items at indices `[10, 20)`; page 2 of 3 questions passes the gate
(`2 ≤ 3 % 10`) and returns the empty slice. -/
theorem paginate_gate_and_slice_witness :
    paginate_questions 2 (mkQs 12) =
      Except.ok ((((mkQs 12).map Question.format).drop ((((2 : Int) - 1) *
        (QUESTIONS_PER_PAGE : Int)).toNat)).take QUESTIONS_PER_PAGE) ∧
    paginate_questions 2 (mkQs 3) = Except.ok [] :=
  ⟨(paginate_gate_and_slice 2 (mkQs 12)).2.1 (by decide) (by decide),
   (paginate_gate_and_slice 2 (mkQs 3)).2.2 (by decide) (by decide) (by decide)⟩

theorem paginate_error_eq {page : Int} {sel : List Question} {e : Nat}
    (h : paginate_questions page sel = Except.error e) : e = 404 := by
  by_cases hc : ((sel.length % QUESTIONS_PER_PAGE : Nat) : Int) < page
  · simp only [paginate_questions, if_pos hc] at h
    exact (Except.error.inj h).symm
  · simp only [paginate_questions, if_neg hc] at h
    exact absurd h (by simp)

/-! ## C2: pagination of an empty collection -/

/-- C2 (counterexample): pagination of the empty collection at the default
page 1 does not yield an empty page: the gate `page > 0 % 10` fires and the
request is rejected with a 404. -/
theorem paginate_empty_counterexample :
    paginate_questions 1 [] = Except.error 404 ∧
    paginate_questions 1 [] ≠ Except.ok [] := by
  constructor
  · decide
  · decide

/-- C2 (amended): pagination of an empty collection fails the page gate with a
404 for every page number ≥ 1 (the total count modulo 10 is 0); only page
numbers ≤ 0 pass the gate, and those yield an empty page. -/
theorem paginate_empty (page : Int) :
    (1 ≤ page → paginate_questions page ([] : List Question) = Except.error 404)
  ∧ (page ≤ 0 → paginate_questions page ([] : List Question) = Except.ok []) := by
  constructor
  · intro h
    exact (paginate_gate page []).mpr (by simpa using h)
  · intro h
    have hng : ¬ ((([] : List Question).length % QUESTIONS_PER_PAGE : Nat) : Int)
        < page := by simpa using by omega
    simp only [paginate_questions, if_neg hng]
    simp [pySlice]

/-- C2 (witness): the default page 1 is rejected on an empty collection, while
page 0 yields the empty page. -/
theorem paginate_empty_witness :
    paginate_questions 1 ([] : List Question) = Except.error 404 ∧
    paginate_questions 0 ([] : List Question) = Except.ok [] :=
  ⟨(paginate_empty 1).1 (by decide), (paginate_empty 0).2 (by decide)⟩

/-! ## C3: the search branch of POST /questions -/

/-- C3 (counterexample): the claim says the matches are exactly the questions
whose text case-insensitively contains the search term as a substring.  The
search term is interpolated verbatim into the `ilike` pattern, so its `%`
acts as a wildcard: searching for `a%b` matches the question `axb`, whose
text does not contain `a%b` as a substring. -/
theorem search_wildcard_counterexample :
    (add_questions ⟨some "a%b", none, none, none, none⟩ 1 false
        ⟨[⟨0, "axb", "ans", 1, 1⟩], [⟨1, "Science"⟩], 1⟩).1 =
      Except.ok (Sum.inl ⟨true, [⟨0, "axb", "ans", 1, 1⟩], 1⟩) ∧
    substrMatches "a%b" "axb" = false := by
  constructor
  · decide
  · decide

/-- C3 (amended): for every POST /questions request whose body contains a
non-empty searchTerm, the matches are exactly the questions whose text
case-insensitively matches the SQL LIKE pattern `%term%` — which, whenever the
term contains no `%` or `_` wildcard, are exactly the questions whose text
case-insensitively contains the term as a substring; zero matches yields a
404; the returned `total_questions` equals the length of the paginated
(returned) page, whereas the creation branch reports the full pre-pagination
count. -/
theorem search_branch_spec (body : QuestionBody) (page : Int) (f : Bool)
    (st : Store) (t : String) (h1 : body.searchTerm = some t) (h2 : t ≠ "") :
    (st.questions.filter (fun q => ilikeMatches t q.question) = [] →
      add_questions body page f st = (Except.error 404, st))
  ∧ (noWildcards t = true →
      st.questions.filter (fun q => ilikeMatches t q.question) =
        st.questions.filter (fun q => substrMatches t q.question))
  ∧ (∀ r, (add_questions body page f st).1 = Except.ok (Sum.inl r) →
      r.total_questions = r.questions.length)
  ∧ (∀ (body' : QuestionBody) (page' : Int) (st' : Store) (q a : String)
      (d c : Int) (r : CreateResponse),
      body'.searchTerm = none → body'.question = some q →
      body'.answer = some a → body'.difficulty = some d →
      body'.category = some c →
      (add_questions body' page' false st').1 = Except.ok (Sum.inr r) →
      r.Total_questions = st'.questions.length + 1) := by
  have htr2 : truthy (some t) = true := by
    simpa [truthy, bne_iff_ne] using h2
  have hsearch : add_questions body page f st =
      (if (st.questions.filter (fun q => ilikeMatches t q.question)).length = 0
       then (Except.error 404, st)
       else
         match paginate_questions page
             (st.questions.filter (fun q => ilikeMatches t q.question)) with
         | Except.error e => (Except.error e, st)
         | Except.ok cur =>
           (Except.ok (Sum.inl ⟨true, cur, cur.length⟩), st)) := by
    unfold add_questions
    rw [h1, htr2, if_pos rfl, Option.getD_some]
  refine ⟨?_, ?_, ?_, ?_⟩
  · intro hf
    rw [hsearch, hf]
    simp
  · intro hw
    exact List.filter_congr (fun q _ => ilikeMatches_eq_substrMatches t q.question hw)
  · intro r hr
    rw [hsearch] at hr
    by_cases hf :
        (st.questions.filter (fun q => ilikeMatches t q.question)).length = 0
    · rw [if_pos hf] at hr
      exact absurd hr (by simp)
    · rw [if_neg hf] at hr
      rcases hp : paginate_questions page
          (st.questions.filter (fun q => ilikeMatches t q.question)) with e | cur
      · simp only [hp] at hr
        exact Except.noConfusion hr
      · simp only [hp] at hr
        have : (⟨true, cur, cur.length⟩ : SearchResponse) = r :=
          Sum.inl.inj (Except.ok.inj hr)
        rw [← this]
  · intro body' page' st' q a d c r hs hq ha hd hc hr
    have htr' : truthy body'.searchTerm = false := by rw [hs]; rfl
    simp only [add_questions, htr', Bool.false_eq_true, if_false,
      hq, ha, hd, hc] at hr
    rcases hp : paginate_questions page'
        (st'.questions ++ [⟨st'.nextId, q, a, c, d⟩]) with e | cur
    · simp only [hp] at hr
      exact Except.noConfusion hr
    · simp only [hp] at hr
      by_cases hz : cur.length = 0
      · rw [if_pos hz] at hr
        exact absurd hr (by simp)
      · rw [if_neg hz] at hr
        have hruns : (⟨true, cur,
            (st'.questions ++ [(⟨st'.nextId, q, a, c, d⟩ : Question)]).length⟩ :
            CreateResponse) = r := Sum.inr.inj (Except.ok.inj hr)
        rw [← hruns]
        simp

/-- C3 (witness): a search for `zz` over a store without matches yields a 404;
for the wildcard-free term `x` the `ilike` filter and the substring filter
agree; a creation request on an empty store reports the full count `0 + 1`. -/
theorem search_branch_spec_witness :
    add_questions ⟨some "zz", none, none, none, none⟩ 1 false (mkStore 0) =
      (Except.error 404, mkStore 0) ∧
    (⟨[⟨0, "axb", "ans", 1, 1⟩], [⟨1, "Science"⟩], 1⟩ :
        Store).questions.filter (fun q => ilikeMatches "x" q.question) =
      (⟨[⟨0, "axb", "ans", 1, 1⟩], [⟨1, "Science"⟩], 1⟩ :
        Store).questions.filter (fun q => substrMatches "x" q.question) ∧
    (⟨true, [⟨0, "Q", "A", 2, 3⟩], 1⟩ : CreateResponse).Total_questions =
      (mkStore 0).questions.length + 1 :=
  ⟨(search_branch_spec (⟨some "zz", none, none, none, none⟩ : QuestionBody) 1
      false (mkStore 0) "zz" rfl (by decide)).1 (by decide),
   (search_branch_spec (⟨some "x", none, none, none, none⟩ : QuestionBody) 1
      false (⟨[⟨0, "axb", "ans", 1, 1⟩], [⟨1, "Science"⟩], 1⟩ : Store)
      "x" rfl (by decide)).2.1 (by decide),
   (search_branch_spec (⟨some "x", none, none, none, none⟩ : QuestionBody) 1
      false (mkStore 0) "x" rfl (by decide)).2.2.2
     (⟨none, some "Q", some "A", some 3, some 2⟩ : QuestionBody) 1 (mkStore 0)
     "Q" "A" 3 2 (⟨true, [⟨0, "Q", "A", 2, 3⟩], 1⟩ : CreateResponse)
     rfl rfl rfl rfl rfl (by decide)⟩

/-! ## C4: branch selection of POST /questions -/

/-- C4 (counterexample): the claim says a body in which searchTerm is present
with an empty-string value takes the search branch.  The code gates on Python
truthiness, so `searchTerm: ""` falls through to the creation branch: with the
other four fields absent the request fails with the creation branch's 400,
which the search branch can never produce. -/
theorem branch_empty_searchTerm_counterexample :
    add_questions ⟨some "", none, none, none, none⟩ 1 false (mkStore 1) =
      (Except.error 400, mkStore 1) := by
  decide

/-- C4 (amended): POST /questions selects the search branch iff the searchTerm
field is present with a non-empty string value: a body whose searchTerm is the
empty string is handled exactly as one lacking the field (creation branch),
and a request with a non-empty searchTerm never produces the creation branch's
missing-field 400. -/
theorem search_branch_selection (body : QuestionBody) (page : Int) (f : Bool)
    (st : Store) :
    (body.searchTerm = some "" →
      add_questions body page f st =
        add_questions { body with searchTerm := none } page f st)
  ∧ (body.searchTerm = none → body.question = none →
      add_questions body page f st = (Except.error 400, st))
  ∧ (∀ t, body.searchTerm = some t → t ≠ "" →
      (add_questions body page f st).1 ≠ Except.error 400) := by
  refine ⟨?_, ?_, ?_⟩
  · intro h
    have h1 : truthy body.searchTerm = false := by rw [h]; rfl
    have h2 : truthy ({ body with searchTerm := none } :
        QuestionBody).searchTerm = false := rfl
    simp only [add_questions, h1, h2, Bool.false_eq_true, if_false]
  · intro h1 h2
    have htr : truthy body.searchTerm = false := by rw [h1]; rfl
    simp only [add_questions, htr, Bool.false_eq_true, if_false, h2]
  · intro t h1 h2 hcon
    have htr2 : truthy (some t) = true := by
      simpa [truthy, bne_iff_ne] using h2
    unfold add_questions at hcon
    rw [h1, htr2, if_pos rfl, Option.getD_some] at hcon
    by_cases hf :
        (st.questions.filter (fun q => ilikeMatches t q.question)).length = 0
    · rw [if_pos hf] at hcon
      simp at hcon
    · rw [if_neg hf] at hcon
      rcases hp : paginate_questions page
          (st.questions.filter (fun q => ilikeMatches t q.question)) with e | cur
      · simp only [hp] at hcon
        have h404 : e = 404 := paginate_error_eq hp
        rw [h404] at hcon
        simp at hcon
      · simp only [hp] at hcon
        exact Except.noConfusion hcon

/-- C4 (witness): an empty-string searchTerm behaves as an absent one; a body
lacking both searchTerm and question fails 400; a non-empty searchTerm with no
creation fields does not fail 400. -/
theorem search_branch_selection_witness :
    add_questions ⟨some "", some "Q", none, none, none⟩ 1 false (mkStore 1) =
      add_questions ⟨none, some "Q", none, none, none⟩ 1 false (mkStore 1) ∧
    add_questions ⟨none, none, some "A", some 1, some 1⟩ 1 false (mkStore 1) =
      (Except.error 400, mkStore 1) ∧
    (add_questions ⟨some "q", none, none, none, none⟩ 1 false (mkStore 1)).1 ≠
      Except.error 400 :=
  ⟨(search_branch_selection (⟨some "", some "Q", none, none, none⟩ :
      QuestionBody) 1 false (mkStore 1)).1 rfl,
   (search_branch_selection (⟨none, none, some "A", some 1, some 1⟩ :
      QuestionBody) 1 false (mkStore 1)).2.1 rfl rfl,
   (search_branch_selection (⟨some "q", none, none, none, none⟩ :
      QuestionBody) 1 false (mkStore 1)).2.2 "q" rfl (by decide)⟩

/-! ## C5: creation-branch validation -/

theorem creation_no400 (body : QuestionBody) (page : Int) (f : Bool)
    (st : Store) (hs : truthy body.searchTerm = false) (q a : String)
    (d c : Int) (hq : body.question = some q) (ha : body.answer = some a)
    (hd : body.difficulty = some d) (hc : body.category = some c) :
    (add_questions body page f st).1 ≠ Except.error 400 := by
  intro hcon
  simp only [add_questions, hs, Bool.false_eq_true, if_false,
    hq, ha, hd, hc] at hcon
  cases f with
  | true =>
    rw [if_pos rfl] at hcon
    rcases hp : paginate_questions page st.questions with e | cur
    · simp only [hp] at hcon
      have h404 : e = 404 := paginate_error_eq hp
      rw [h404] at hcon
      simp at hcon
    · simp only [hp] at hcon
      simp at hcon
  | false =>
    rw [if_neg Bool.false_ne_true] at hcon
    rcases hp : paginate_questions page
        (st.questions ++ [⟨st.nextId, q, a, c, d⟩]) with e | cur
    · simp only [hp] at hcon
      have h404 : e = 404 := paginate_error_eq hp
      rw [h404] at hcon
      simp at hcon
    · simp only [hp] at hcon
      by_cases hz : cur.length = 0
      · rw [if_pos hz] at hcon
        simp at hcon
      · rw [if_neg hz] at hcon
        exact Except.noConfusion hcon

/-- C5: for every POST /questions creation request (no searchTerm), the
request fails with a 400 iff at least one of the four fields question,
answer, difficulty, category is absent from the body; when all four are
present (and the storage layer does not fail) a new Question with those
values is constructed and persisted at the end of the table. -/
theorem creation_field_validation (body : QuestionBody) (page : Int) (f : Bool)
    (st : Store) (h : body.searchTerm = none) :
    ((add_questions body page f st).1 = Except.error 400 ↔
      (body.question = none ∨ body.answer = none ∨ body.difficulty = none ∨
        body.category = none))
  ∧ (∀ (q a : String) (d c : Int), body.question = some q →
      body.answer = some a → body.difficulty = some d →
      body.category = some c →
      (add_questions body page false st).2.questions =
        st.questions ++ [⟨st.nextId, q, a, c, d⟩]) := by
  have htr : truthy body.searchTerm = false := by rw [h]; rfl
  constructor
  · constructor
    · intro h400
      by_contra hmiss
      push_neg at hmiss
      obtain ⟨hq, ha, hd, hc⟩ := hmiss
      rw [Option.ne_none_iff_exists'] at hq ha hd hc
      obtain ⟨q, hq⟩ := hq
      obtain ⟨a, ha⟩ := ha
      obtain ⟨d, hd⟩ := hd
      obtain ⟨c, hc⟩ := hc
      exact creation_no400 body page f st htr q a d c hq ha hd hc h400
    · rintro (hq | ha | hd | hc)
      · simp [add_questions, htr, hq]
      · rcases hq2 : body.question with _ | q <;>
          simp [add_questions, htr, hq2, ha]
      · rcases hq2 : body.question with _ | q <;>
          rcases ha2 : body.answer with _ | a <;>
          simp [add_questions, htr, hq2, ha2, hd]
      · rcases hq2 : body.question with _ | q <;>
          rcases ha2 : body.answer with _ | a <;>
          rcases hd2 : body.difficulty with _ | d <;>
          simp [add_questions, htr, hq2, ha2, hd2, hc]
  · intro q a d c hq ha hd hc
    simp only [add_questions, htr, Bool.false_eq_true, if_false,
      hq, ha, hd, hc]
    rcases hp : paginate_questions page
        (st.questions ++ [⟨st.nextId, q, a, c, d⟩]) with e | cur
    · simp [hp]
    · by_cases hz : cur.length = 0 <;> simp [hp, hz]

/-- C5 (witness): a body carrying all four fields persists the new question at
the end of the (empty) table, and a body lacking all fields fails 400. -/
theorem creation_field_validation_witness :
    (add_questions ⟨none, some "Q", some "A", some 2, some 3⟩ 1 false
        (mkStore 0)).2.questions =
      (mkStore 0).questions ++ [⟨0, "Q", "A", 3, 2⟩] ∧
    (add_questions ⟨none, none, none, none, none⟩ 1 false (mkStore 0)).1 =
      Except.error 400 :=
  ⟨(creation_field_validation (⟨none, some "Q", some "A", some 2, some 3⟩ :
       QuestionBody) 1 false (mkStore 0) rfl).2 "Q" "A" 2 3 rfl rfl rfl rfl,
   (creation_field_validation (⟨none, none, none, none, none⟩ :
       QuestionBody) 1 false (mkStore 0) rfl).1.mpr (Or.inl rfl)⟩

/-! ## C7: POST /quizzes without a quiz_category -/

/-- C7: for every POST /quizzes request whose body lacks the quiz_category
field, the service fails with a 422 and no question is returned. -/
theorem quiz_missing_category (body : QuizBody) (pick : Nat) (st : Store)
    (h : body.quiz_category = none) :
    play_quiz body pick st = Except.error 422 := by
  simp [play_quiz, h]

/-- C7 (witness): a concrete body without quiz_category is rejected 422. -/
theorem quiz_missing_category_witness :
    play_quiz ⟨none, some [1, 2]⟩ 0 (mkStore 3) = Except.error 422 :=
  quiz_missing_category (⟨none, some [1, 2]⟩ : QuizBody) 0 (mkStore 3) rfl

/-! ## C6: quiz question selection -/

theorem one_or_none_ok_some {l : List α} {a : α}
    (h : one_or_none l = Except.ok (some a)) : l = [a] := by
  match l with
  | [] => simp [one_or_none] at h
  | [x] =>
    simp only [one_or_none, Except.ok.injEq, Option.some.injEq] at h
    rw [h]
  | x :: y :: t => simp [one_or_none] at h

theorem quiz_core_spec (st : Store) (pick : Nat) (qs : List Question)
    (hsub : ∀ q ∈ qs, q ∈ st.questions) (r : QuizResponse)
    (fq : FormattedQuestion)
    (hr : (if qs.length = 0 then Except.ok (⟨true, none⟩ : QuizResponse)
       else
         match qs.get? (pick % qs.length) with
         | none => Except.error 500
         | some chosen =>
           match one_or_none
               (st.questions.filter (fun q => q.id == chosen.id)) with
           | Except.error e => Except.error e
           | Except.ok none => Except.error 500
           | Except.ok (some nextq) =>
             Except.ok ⟨true, some nextq.format⟩) = Except.ok r)
    (hfq : r.question = some fq) :
    ∃ q0, q0 ∈ qs ∧ fq = q0.format := by
  by_cases hz : qs.length = 0
  · rw [if_pos hz] at hr
    have hrr : r = ⟨true, none⟩ := (Except.ok.inj hr).symm
    rw [hrr] at hfq
    exact Option.noConfusion hfq
  · rw [if_neg hz] at hr
    rcases hget : qs.get? (pick % qs.length) with _ | chosen
    · simp only [hget] at hr
      exact Except.noConfusion hr
    · simp only [hget] at hr
      rcases hone : one_or_none
          (st.questions.filter (fun q => q.id == chosen.id)) with e | onq
      · simp only [hone] at hr
        exact Except.noConfusion hr
      · rcases onq with _ | nextq
        · simp only [hone] at hr
          exact Except.noConfusion hr
        · simp only [hone] at hr
          have hrr : r = ⟨true, some nextq.format⟩ := (Except.ok.inj hr).symm
          rw [hrr] at hfq
          have hfq' : fq = nextq.format := (Option.some.inj hfq).symm
          have hl : st.questions.filter (fun q => q.id == chosen.id) = [nextq] :=
            one_or_none_ok_some hone
          have hmemqs : chosen ∈ qs := List.get?_mem hget
          have hmemf : chosen ∈ st.questions.filter (fun q => q.id == chosen.id) :=
            List.mem_filter.mpr ⟨hsub chosen hmemqs, by simp⟩
          rw [hl, List.mem_singleton] at hmemf
          exact ⟨chosen, hmemqs, by rw [hfq', hmemf]⟩

/-- C6: for every POST /quizzes request with quiz_category (and
previous_questions) present, any question returned has an id not in
previous_questions and, when the category id is nonzero, a category equal to
the given id; category id 0 draws from all questions (the response is the
null-question completion signal exactly when no question outside
previous_questions exists at all); and when the filtered candidate set is
empty the response is success with a null question, not an error. -/
theorem play_quiz_spec (body : QuizBody) (pick : Nat) (st : Store)
    (qc : QuizCategory) (prev : List Nat)
    (h1 : body.quiz_category = some qc)
    (h2 : body.previous_questions = some prev) :
    (∀ (r : QuizResponse) (fq : FormattedQuestion),
        play_quiz body pick st = Except.ok r → r.question = some fq →
        fq.id ∉ prev ∧ (qc.id ≠ 0 → fq.category = qc.id))
  ∧ (qc.id = 0 →
      (play_quiz body pick st = Except.ok ⟨true, none⟩ ↔
        st.questions.filter (fun q => !(prev.contains q.id)) = []))
  ∧ (qc.id ≠ 0 →
      st.questions.filter
          (fun q => q.category == qc.id && !(prev.contains q.id)) = [] →
      play_quiz body pick st = Except.ok ⟨true, none⟩) := by
  refine ⟨?_, ?_, ?_⟩
  · intro r fq hr hfq
    simp only [play_quiz, h1, h2] at hr
    by_cases hcid : qc.id = 0
    · have hb : (qc.id == 0) = true := by simpa using hcid
      rw [if_pos hb] at hr
      obtain ⟨q0, hq0, hfmt⟩ := quiz_core_spec st pick
        (st.questions.filter (fun q => !(prev.contains q.id)))
        (fun q hq => (List.mem_filter.mp hq).1) r fq hr hfq
      have hq0p := (List.mem_filter.mp hq0).2
      constructor
      · rw [hfmt]
        simpa using hq0p
      · intro hne
        exact absurd hcid hne
    · have hb : (qc.id == 0) = false := by simpa using hcid
      simp only [hb, Bool.false_eq_true, if_false] at hr
      obtain ⟨q0, hq0, hfmt⟩ := quiz_core_spec st pick
        (st.questions.filter
          (fun q => q.category == qc.id && !(prev.contains q.id)))
        (fun q hq => (List.mem_filter.mp hq).1) r fq hr hfq
      have hq0p := (List.mem_filter.mp hq0).2
      rw [Bool.and_eq_true] at hq0p
      constructor
      · rw [hfmt]
        simpa using hq0p.2
      · intro _
        rw [hfmt]
        simpa [Question.format] using hq0p.1
  · intro hcid
    have hb : (qc.id == 0) = true := by simpa using hcid
    constructor
    · intro hok
      by_contra hne
      simp only [play_quiz, h1, h2] at hok
      rw [if_pos hb] at hok
      have hzl : ¬ ((st.questions.filter
          (fun q => !(prev.contains q.id))).length = 0) := by
        simpa [List.length_eq_zero] using hne
      rw [if_neg hzl] at hok
      have hlt : pick % (st.questions.filter
            (fun q => !(prev.contains q.id))).length <
          (st.questions.filter (fun q => !(prev.contains q.id))).length :=
        Nat.mod_lt _ (Nat.pos_of_ne_zero hzl)
      rcases hget : (st.questions.filter
          (fun q => !(prev.contains q.id))).get? (pick %
            (st.questions.filter (fun q => !(prev.contains q.id))).length)
          with _ | chosen
      · rw [List.get?_eq_none] at hget
        omega
      · simp only [hget] at hok
        rcases hone : one_or_none
            (st.questions.filter (fun q => q.id == chosen.id)) with e | onq
        · simp only [hone] at hok
          exact Except.noConfusion hok
        · rcases onq with _ | nextq
          · simp only [hone] at hok
            exact Except.noConfusion hok
          · simp only [hone] at hok
            have := Except.ok.inj hok
            simp at this
    · intro hempty
      simp only [play_quiz, h1, h2]
      rw [if_pos hb, hempty]
      simp
  · intro hcid hempty
    have hb : (qc.id == 0) = false := by simpa using hcid
    simp only [play_quiz, h1, h2, hb, Bool.false_eq_true, if_false, hempty]
    simp

/-- C6 (witness): with questions 0, 1, 2 and previous_questions `[0, 1]`, the
returned question has id 2 (not previously seen); with all three exhausted the
response is the null-question completion signal. -/
theorem play_quiz_spec_witness :
    ((mkQ 2).format.id ∉ [0, 1] ∧
      ((0 : Int) ≠ 0 → (mkQ 2).format.category = 0)) ∧
    play_quiz ⟨some ⟨0⟩, some [0, 1, 2]⟩ 0 (mkStore 3) =
      Except.ok ⟨true, none⟩ :=
  ⟨(play_quiz_spec (⟨some ⟨0⟩, some [0, 1]⟩ : QuizBody) 0 (mkStore 3)
      ⟨0⟩ [0, 1] rfl rfl).1 ⟨true, some (mkQ 2).format⟩ (mkQ 2).format
      (by decide) rfl,
   ((play_quiz_spec (⟨some ⟨0⟩, some [0, 1, 2]⟩ : QuizBody) 0 (mkStore 3)
      ⟨0⟩ [0, 1, 2] rfl rfl).2.1 rfl).mpr (by decide)⟩

/-! ## C8: DELETE /questions/id -/

theorem length_filter_add_length_filter_not (l : List α) (p : α → Bool) :
    (l.filter p).length + (l.filter (fun a => !(p a))).length = l.length := by
  induction l with
  | nil => rfl
  | cons a t ih =>
    cases h : p a <;> simp [List.filter_cons, h] <;> omega

theorem exceptMap_ok {α β : Type} {f : α → β} {x : Except Nat α} {r : β}
    (h : x.map f = Except.ok r) : ∃ a, x = Except.ok a ∧ r = f a := by
  cases x with
  | error e => simp [Except.map] at h
  | ok a =>
    refine ⟨a, rfl, ?_⟩
    have h' : Except.ok (f a) = Except.ok r := h
    exact (Except.ok.inj h').symm

theorem mem_pySlice {l : List α} {a b : Int} {x : α}
    (h : x ∈ pySlice l a b) : x ∈ l :=
  List.mem_of_mem_take (List.mem_of_mem_drop h)

theorem paginate_ok_inv {page : Int} {sel : List Question}
    {cur : List FormattedQuestion}
    (h : paginate_questions page sel = Except.ok cur) :
    cur = pySlice (sel.map Question.format)
      ((page - 1) * (QUESTIONS_PER_PAGE : Int))
      ((page - 1) * (QUESTIONS_PER_PAGE : Int) + (QUESTIONS_PER_PAGE : Int)) := by
  by_cases hc : ((sel.length % QUESTIONS_PER_PAGE : Nat) : Int) < page
  · simp only [paginate_questions, if_pos hc] at h
    exact Except.noConfusion h
  · simp only [paginate_questions, if_neg hc] at h
    exact (Except.ok.inj h).symm

theorem questions_ok {page : Int} {st : Store} {r : QuestionListResponse}
    (h : questions page st = Except.ok r) :
    ∃ cur, paginate_questions page st.questions = Except.ok cur ∧
      r.questions = cur := by
  unfold questions at h
  by_cases h1 : st.categories.length = 0
  · rw [if_pos h1] at h
    exact Except.noConfusion h
  · rw [if_neg h1] at h
    by_cases h2 : st.questions.length = 0
    · rw [if_pos h2] at h
      exact Except.noConfusion h
    · rw [if_neg h2] at h
      obtain ⟨cur, hcur, hr⟩ := exceptMap_ok h
      exact ⟨cur, hcur, by rw [hr]⟩

/-- C8 (counterexample): with 11 stored questions, deleting an existing id at
the default page succeeds at the store (10 rows remain) yet responds 404: the
always-run re-pagination gate fires because `10 % 10 = 0`.  With 20 stored
questions a failing delete responds 404 instead of the claimed 422, the
pending 422 being replaced by the abort raised in the finally block. -/
theorem delete_pagination_shadow_counterexample :
    (delete_question 0 1 false (mkStore 11)).1 = Except.error 404 ∧
    (delete_question 0 1 false (mkStore 11)).2.questions.length = 10 ∧
    (delete_question 0 1 true (mkStore 20)).1 = Except.error 404 := by
  refine ⟨by decide, by decide, by decide⟩

/-- C8 (amended): for every DELETE /questions/id: if no question with that id
exists the service fails 404; on successful deletion the store durably loses
exactly the row with that id (the new total is one less and the id is absent
from all subsequent listings), and, provided the re-pagination of the
remaining rows succeeds, the response carries success, the remaining paginated
questions, the decremented total, and the deleted id; on storage failure the
store is rolled back unchanged and, provided the re-pagination succeeds, the
response is 422 (when the re-pagination aborts, its 404 replaces either
response). -/
theorem delete_question_spec (qid : Nat) (page : Int) (st : Store) :
    (st.questions.filter (fun q => q.id == qid) = [] →
      ∀ f, delete_question qid page f st = (Except.error 404, st))
  ∧ (∀ q : Question,
      one_or_none (st.questions.filter (fun x => x.id == qid)) =
        Except.ok (some q) →
      ((delete_question qid page false st).2.questions.length + 1 =
          st.questions.length)
    ∧ (∀ x ∈ (delete_question qid page false st).2.questions, x.id ≠ qid)
    ∧ (∀ (page' : Int) (r : QuestionListResponse),
        questions page' (delete_question qid page false st).2 = Except.ok r →
        ∀ fq ∈ r.questions, fq.id ≠ qid)
    ∧ (∀ cur, paginate_questions page
          (st.questions.filter (fun x => x.id != qid)) = Except.ok cur →
        (delete_question qid page false st).1 =
          Except.ok ⟨true, cur, st.questions.length - 1, qid⟩)
    ∧ ((delete_question qid page true st).2 = st)
    ∧ (∀ cur, paginate_questions page st.questions = Except.ok cur →
        (delete_question qid page true st).1 = Except.error 422)) := by
  constructor
  · intro hf f
    simp [delete_question, hf, one_or_none]
  · intro q hone
    have hfilter : st.questions.filter (fun x => x.id == qid) = [q] :=
      one_or_none_ok_some hone
    have hbne : (fun (x : Question) => x.id != qid) =
        (fun x => !(x.id == qid)) := rfl
    have hlenrem :
        (st.questions.filter (fun x => x.id != qid)).length + 1 =
          st.questions.length := by
      have hpart := length_filter_add_length_filter_not st.questions
        (fun x => x.id == qid)
      have hlen1 : (st.questions.filter (fun x => x.id == qid)).length = 1 := by
        rw [hfilter]
        rfl
      rw [hbne]
      omega
    have hredF : delete_question qid page false st =
        (match paginate_questions page
            (st.questions.filter (fun x => x.id != qid)) with
         | Except.error e => (Except.error e,
             ⟨st.questions.filter (fun x => x.id != qid), st.categories,
               st.nextId⟩)
         | Except.ok cur =>
           (Except.ok ⟨true, cur,
               (st.questions.filter (fun x => x.id != qid)).length, qid⟩,
             ⟨st.questions.filter (fun x => x.id != qid), st.categories,
               st.nextId⟩)) := by
      simp only [delete_question, hone, Bool.false_eq_true, if_false]
    have h2q : (delete_question qid page false st).2.questions =
        st.questions.filter (fun x => x.id != qid) := by
      rw [hredF]
      rcases hp : paginate_questions page
          (st.questions.filter (fun x => x.id != qid)) with e | cur <;>
        simp [hp]
    have hmem : ∀ x ∈ (delete_question qid page false st).2.questions,
        x.id ≠ qid := by
      intro x hx
      rw [h2q] at hx
      have := (List.mem_filter.mp hx).2
      simpa [bne_iff_ne] using this
    have hredT : delete_question qid page true st =
        (match paginate_questions page st.questions with
         | Except.error e => (Except.error e, st)
         | Except.ok _ => (Except.error 422, st)) := by
      simp only [delete_question, hone]
      rw [if_pos trivial]
    refine ⟨by rw [h2q]; exact hlenrem, hmem, ?_, ?_, ?_, ?_⟩
    · intro page' r hr fq hfq
      obtain ⟨cur, hcur, hrq⟩ := questions_ok hr
      rw [hrq, paginate_ok_inv hcur] at hfq
      have hfq2 := mem_pySlice hfq
      obtain ⟨x, hxmem, hxfmt⟩ := List.mem_map.mp hfq2
      have hxid : x.id ≠ qid := hmem x hxmem
      rw [← hxfmt]
      exact hxid
    · intro cur hp
      rw [hredF]
      simp only [hp]
      have hl : (st.questions.filter (fun x => x.id != qid)).length =
          st.questions.length - 1 := by omega
      rw [hl]
    · rw [hredT]
      rcases hp : paginate_questions page st.questions with e | cur <;>
        simp [hp]
    · intro cur hp
      rw [hredT]
      simp only [hp]

/-- C8 (witness): deleting a missing id 404s; deleting id 0 out of five
questions decrements the total by one and, the re-pagination succeeding,
a failing delete on the same store is rolled back and reported 422. -/
theorem delete_question_spec_witness :
    delete_question 99 1 false (mkStore 5) = (Except.error 404, mkStore 5) ∧
    (delete_question 0 1 false (mkStore 5)).2.questions.length + 1 =
      (mkStore 5).questions.length ∧
    (delete_question 0 1 true (mkStore 5)).1 = Except.error 422 :=
  ⟨(delete_question_spec 99 1 (mkStore 5)).1 (by decide) false,
   ((delete_question_spec 0 1 (mkStore 5)).2 (mkQ 0) (by decide)).1,
   ((delete_question_spec 0 1 (mkStore 5)).2 (mkQ 0) (by decide)).2.2.2.2.2
     ((mkQs 5).map Question.format) (by decide)⟩

/-! ## C9: GET /categories/id/questions error paths -/

/-- C9: a nonexistent category id yields a 404, an existing category with zero
matching questions also yields a 404, and both failures go through the single
registered 404 handler, whose body is exactly
`success: false, error: 404, message: "resource not found"`. -/
theorem question_by_category_spec (cid : Nat) (page : Int) (st : Store) :
    (st.categories.filter (fun c => c.id == cid) = [] →
      question_by_category cid page st = Except.error 404)
  ∧ (∀ c : Category,
      one_or_none (st.categories.filter (fun x => x.id == cid)) =
        Except.ok (some c) →
      st.questions.filter (fun q => q.category == (cid : Int)) = [] →
      question_by_category cid page st = Except.error 404)
  ∧ errorBody 404 = ⟨false, 404, "resource not found"⟩ := by
  refine ⟨?_, ?_, rfl⟩
  · intro hf
    simp [question_by_category, hf, one_or_none]
  · intro c hone hempty
    simp only [question_by_category, hone, hempty]
    simp

/-- C9 (witness): on a store with the single category 1 and no questions,
category 2 (nonexistent) and category 1 (existing but empty) both produce the
identical 404 rejection. -/
theorem question_by_category_spec_witness :
    question_by_category 2 1 (mkStore 0) = Except.error 404 ∧
    question_by_category 1 1 (mkStore 0) = Except.error 404 ∧
    errorBody 404 = ⟨false, 404, "resource not found"⟩ :=
  ⟨(question_by_category_spec 2 1 (mkStore 0)).1 (by decide),
   (question_by_category_spec 1 1 (mkStore 0)).2.1 ⟨1, "Science"⟩
     (by decide) (by decide),
   (question_by_category_spec 1 1 (mkStore 0)).2.2⟩

/-! ## C10: mutations persist behind error responses -/

/-- C10: an error response from DELETE /questions/id or the POST /questions
creation branch does not imply the store is unchanged.  Deleting id 3 from an
11-question store leaves 10 persisted rows (id 3 gone) yet responds 404 from
the always-run re-pagination (`10 % 10 = 0`); inserting into a 9-question
store persists the new row as the tenth yet responds 404 for the same
reason. -/
theorem mutation_persists_despite_404 :
    ((delete_question 3 1 false (mkStore 11)).1 = Except.error 404 ∧
     (delete_question 3 1 false (mkStore 11)).2.questions.length = 10 ∧
     (∀ x ∈ (delete_question 3 1 false (mkStore 11)).2.questions, x.id ≠ 3)) ∧
    ((add_questions ⟨none, some "Q", some "A", some 1, some 2⟩ 1 false
        (mkStore 9)).1 = Except.error 404 ∧
     (add_questions ⟨none, some "Q", some "A", some 1, some 2⟩ 1 false
        (mkStore 9)).2.questions =
       (mkStore 9).questions ++ [⟨9, "Q", "A", 2, 1⟩]) := by
  refine ⟨⟨by decide, by decide, by decide⟩, by decide, by decide⟩

end Trivia
